import Mathlib

/-!
Verification of the moderation action dispatcher of `mute_admin_bot.py`.

The dispatcher consists of:
* a per-`(chat_id, sender_id)` debounce aggregator (`on_any_message` plus the
  nested `_flush_after_delay`), buffering message ids in a `deque(maxlen=50)`,
  tracking a last-activity timestamp and a burst counter;
* a bounded dispatch queue (`_ensure_delete_queue`, `_enqueue_delete`,
  `_drop_oldest_and_put`);
* a single consumer with a backoff multiplier (`_delete_worker`).

The embedding below is a direct functional translation: time is `ℚ`, Telegram
ids are `Int`, the external collaborators (`MUTED` membership, the
`get_chat_member` privilege lookup, the owner id, and the success of the
best-effort notify call) are passed in as explicit arguments.
-/

namespace MuteBot

/-- A `(chat_id, sender_id)` key, mirroring the `key = (chat.id, sender.id)`
tuples indexing `_pending_messages_by_user`, `_last_seen_by_user` and
`_user_spam_counters`. -/
abbrev Key := Int × Int

/-- A DispatchItem `(chat_id, message_id, user_id)` as built by
`_enqueue_delete` and consumed by `_delete_worker`. -/
abbrev Item := Int × Int × Int

/-- The environment-derived configuration surface of `mute_admin_bot.py`:
`DELETE_RATE_PER_SECOND`, `DEBOUNCE_WINDOW_SECONDS`, `MAX_QUEUE_SIZE`,
`SPAM_NOTIFY_THRESHOLD`. -/
structure Config where
  deleteRatePerSecond : Int
  debounceWindow : ℚ
  maxQueueSize : Nat
  spamNotifyThreshold : Nat

/-- The default configuration values (15, 0.6, 4000, 20). -/
def defaultConfig : Config :=
  { deleteRatePerSecond := 15
    debounceWindow := 3/5
    maxQueueSize := 4000
    spamNotifyThreshold := 20 }

/-- Append to a `collections.deque(maxlen=cap)` holding the list left-to-right
with the oldest element first: when the deque is at capacity, appending drops
the oldest (leftmost) element. States with `cap < xs.length` are unreachable
for a real deque; there we also drop one element from the left. -/
def dequeAppend (cap : Nat) (xs : List Int) (x : Int) : List Int :=
  if xs.length < cap then xs ++ [x] else xs.tail ++ [x]

/-- The shared dispatcher state: the three per-key maps (`defaultdict`s, so
total functions with defaults `[]`, `0.0`, `0`), the delete queue (oldest item
first), and the consumer-owned backoff multiplier. -/
structure BotState where
  pending : Key → List Int
  lastSeen : Key → ℚ
  spamCounter : Key → Nat
  queue : List Item
  backoff : ℚ

/-- The process-start state: empty maps, empty queue,
`backoff_multiplier = 1.0`. -/
def initState : BotState :=
  { pending := fun _ => []
    lastSeen := fun _ => 0
    spamCounter := fun _ => 0
    queue := []
    backoff := 1 }

/-- `_drop_oldest_and_put(q, item)`: pop the oldest entry with `get_nowait`
(on an empty queue the exception is swallowed and `tail [] = []`), then
`put_nowait(item)`.  After popping, the queue is strictly below capacity, so
the put always succeeds (the `create_task(q.put(item))` fallback is
unreachable for a queue with positive capacity). -/
def dropOldestAndPut (q : List Item) (x : Item) : List Item :=
  q.tail ++ [x]

/-- `_enqueue_delete`: `put_nowait` the item; an `asyncio.Queue` with
`maxsize = cap` is full iff `cap ≠ 0` and `cap ≤ q.length` (`maxsize 0` means
unbounded); on `QueueFull`, fall back to `_drop_oldest_and_put`. -/
def enqueueDelete (cap : Nat) (q : List Item) (x : Item) : List Item :=
  if cap = 0 ∨ q.length < cap then q ++ [x] else dropOldestAndPut q x

/-- The privilege test `member.status in ("administrator", "creator")`
performed on the result of `get_chat_member`; `none` stands for a lookup that
raised (caught by the surrounding `except Exception: pass`). -/
def isElevated : Option String → Bool
  | some st => st == "administrator" || st == "creator"
  | none => false

/-- The outcome of one `on_any_message` call: the new state, whether a
debounce flush task was scheduled, and whether the spam notification was
attempted. -/
structure StepRes where
  st : BotState
  timer : Bool
  notified : Bool

/-- `on_any_message(update, context)` for a message `(room, sender, mid)`
arriving at wall-clock time `now`.  `muted` is the membership test
`sender.id in MUTED.get(chat.id, set())`; `memberStatus` is the
`get_chat_member` result (with `none` for a failed lookup); `owner` is
`get_owner()`; ` notifyOk` is whether the best-effort `send_message` to the
owner succeeds — the code swallows its failure, so the result never depends
on it. -/
def onAnyMessage (cfg : Config) (s : BotState) (room sender mid : Int)
    (now : ℚ) (muted : Bool) (memberStatus : Option String)
    (owner : Option Int) ( notifyOk : Bool) : StepRes :=
  if muted then
    let key : Key := (room, sender)
    let pending1 := dequeAppend 50 (s.pending key) mid
    let counter1 := s.spamCounter key + 1
    let s1 : BotState :=
      { s with
        pending := Function.update s.pending key pending1
        lastSeen := Function.update s.lastSeen key now
        spamCounter := Function.update s.spamCounter key counter1 }
    let notified := decide (counter1 = cfg.spamNotifyThreshold) && owner.isSome
    if isElevated memberStatus then
      { st :=
          { s1 with
            queue := pending1.foldl
              (fun q m => enqueueDelete cfg.maxQueueSize q (room, m, sender))
              s1.queue
            pending := Function.update s1.pending key []
            spamCounter := Function.update s1.spamCounter key 0
            lastSeen := Function.update s1.lastSeen key 0 }
        timer := false
        notified := notified }
    else
      { st := s1, timer := true, notified := notified }
  else
    { st := s, timer := false, notified := false }

/-- The body of `_flush_after_delay(app, k, delay)` after its
`asyncio.sleep(delay)` returns, executing at wall-clock time `t` with
`delay = DEBOUNCE_WINDOW_SECONDS`: if at least one window elapsed since the
key's last activity, drain the pending deque keeping the most recently
appended id, enqueue it as a single DispatchItem when truthy (a Python
`if newest_mid:` — false for `None` and for id `0`), and reset the counter
and the last-activity stamp.  Otherwise, or when nothing is pending, return
without touching anything. -/
def flushCheck (cfg : Config) (s : BotState) (k : Key) (t : ℚ) : BotState :=
  if cfg.debounceWindow ≤ t - s.lastSeen k then
    let pend := s.pending k
    if pend.isEmpty then s
    else
      let q1 :=
        match pend.getLast? with
        | some m =>
            if m ≠ 0 then enqueueDelete cfg.maxQueueSize s.queue (k.1, m, k.2)
            else s.queue
        | none => s.queue
      { s with
        pending := Function.update s.pending k []
        queue := q1
        spamCounter := Function.update s.spamCounter k 0
        lastSeen := Function.update s.lastSeen k 0 }
  else s

/-- Observable actions of one `_delete_worker` iteration, in program order. -/
inductive Action where
  | deleteCall : Item → Action
  | reenqueue : Item → Action
  | sleep : ℚ → Action
  | setBackoff : ℚ → Action
  deriving DecidableEq

/-- Result of one `_delete_worker` iteration: the queue left behind, the new
backoff multiplier, and the trace of observable actions in program order. -/
structure WorkerOut where
  queue : List Item
  backoff : ℚ
  trace : List Action

/-- Outcome of the downstream `bot.delete_message` call: success, a
`RetryAfter` exception carrying `retry_after`, a non-retryable
`TelegramError`, or any other unexpected exception. -/
inductive DeleteResult where
  | success
  | retryAfter : ℚ → DeleteResult
  | telegramError
  | unexpected

/-- `base_interval = 1.0 / max(1, DELETE_RATE_PER_SECOND)`. -/
def baseInterval (cfg : Config) : ℚ :=
  1 / ((max 1 cfg.deleteRatePerSecond : Int) : ℚ)

/-- One iteration of `_delete_worker` after `q.get()` returned `item`
leaving `rest` behind, with current multiplier `backoff`, when the delete
call produced `res`.  `min_backoff = base_interval` and `max_backoff = 10.0`
as in the source; the `else` pacing sleep runs only on success. -/
def workerStep (cfg : Config) (item : Item) (rest : List Item) (backoff : ℚ)
    (res : DeleteResult) : WorkerOut :=
  let base := baseInterval cfg
  match res with
  | .success =>
      let b := max 1 (backoff * (19/20))
      { queue := rest
        backoff := b
        trace := [.deleteCall item, .setBackoff b, .sleep (min 10 (base * b))] }
  | .retryAfter t =>
      let b := min 8 (backoff * 2)
      { queue := enqueueDelete cfg.maxQueueSize rest item
        backoff := b
        trace := [.deleteCall item, .reenqueue item, .sleep t, .setBackoff b] }
  | .telegramError =>
      { queue := rest
        backoff := backoff
        trace := [.deleteCall item, .sleep base] }
  | .unexpected =>
      let b := min 8 (backoff * (3/2))
      { queue := rest
        backoff := b
        trace := [.deleteCall item, .setBackoff b, .sleep (min 10 (base * b))] }

/-- One message event of a burst: the message id, its arrival time, and the
`get_chat_member` status observed during that call. -/
structure Ev where
  mid : Int
  now : ℚ
  status : Option String

/-- One `on_any_message` call for a muted sender, keeping only the state. -/
def stepEv (cfg : Config) (room sender : Int) (owner : Option Int)
    (s : BotState) (e : Ev) : BotState :=
  (onAnyMessage cfg s room sender e.mid e.now true e.status owner true).st

/-- Run a burst of muted-sender messages through `on_any_message`. -/
def runBurst (cfg : Config) (s : BotState) (room sender : Int)
    (evs : List Ev) (owner : Option Int) : BotState :=
  evs.foldl (stepEv cfg room sender owner) s

/-- The sequence of "spam notification attempted" flags produced by a burst
of muted-sender messages. -/
def burstNotifs (cfg : Config) (s : BotState) (room sender : Int)
    (evs : List Ev) (owner : Option Int) : List Bool :=
  match evs with
  | [] => []
  | e :: rest =>
      let r := onAnyMessage cfg s room sender e.mid e.now true e.status owner true
      r.notified :: burstNotifs cfg r.st room sender rest owner

/-! ### Basic lemmas about the building blocks -/

theorem dequeAppend_getLast (cap : Nat) (xs : List Int) (x : Int) :
    (dequeAppend cap xs x).getLast? = some x := by
  unfold dequeAppend
  split <;> exact List.getLast?_concat _

theorem dequeAppend_ne_nil (cap : Nat) (xs : List Int) (x : Int) :
    dequeAppend cap xs x ≠ [] := by
  unfold dequeAppend
  split <;> simp

theorem enqueueDelete_of_room (cap : Nat) (q : List Item) (x : Item)
    (h : cap = 0 ∨ q.length < cap) : enqueueDelete cap q x = q ++ [x] := by
  unfold enqueueDelete
  exact if_pos h

/-- Projection of a non-escalating `on_any_message` call on a muted sender:
the buffer gains `mid`, the last-activity stamp becomes `now`, the counter
increments, a debounce timer is scheduled, and the queue and backoff are
untouched. -/
theorem onAnyMessage_not_elevated (cfg : Config) (s : BotState)
    (room sender mid : Int) (now : ℚ) (st : Option String) (ow : Option Int)
    (nk : Bool) (h : isElevated st = false) :
    onAnyMessage cfg s room sender mid now true st ow nk =
      { st :=
          { s with
            pending := Function.update s.pending (room, sender)
              (dequeAppend 50 (s.pending (room, sender)) mid)
            lastSeen := Function.update s.lastSeen (room, sender) now
            spamCounter := Function.update s.spamCounter (room, sender)
              (s.spamCounter (room, sender) + 1) }
        timer := true
        notified := decide (s.spamCounter (room, sender) + 1
            = cfg.spamNotifyThreshold) && ow.isSome } := by
  simp only [onAnyMessage, if_true, h, Bool.false_eq_true, if_false]

theorem onAnyMessage_lastSeen (cfg : Config) (s : BotState)
    (room sender mid : Int) (now : ℚ) (st : Option String) (ow : Option Int)
    (nk : Bool) (h : isElevated st = false) :
    (onAnyMessage cfg s room sender mid now true st ow nk).st.lastSeen
      (room, sender) = now := by
  rw [onAnyMessage_not_elevated cfg s room sender mid now st ow nk h]
  exact Function.update_same _ _ _

theorem onAnyMessage_pending (cfg : Config) (s : BotState)
    (room sender mid : Int) (now : ℚ) (st : Option String) (ow : Option Int)
    (nk : Bool) (h : isElevated st = false) :
    (onAnyMessage cfg s room sender mid now true st ow nk).st.pending
      (room, sender) = dequeAppend 50 (s.pending (room, sender)) mid := by
  rw [onAnyMessage_not_elevated cfg s room sender mid now st ow nk h]
  exact Function.update_same _ _ _

theorem onAnyMessage_spam (cfg : Config) (s : BotState)
    (room sender mid : Int) (now : ℚ) (st : Option String) (ow : Option Int)
    (nk : Bool) (h : isElevated st = false) :
    (onAnyMessage cfg s room sender mid now true st ow nk).st.spamCounter
      (room, sender) = s.spamCounter (room, sender) + 1 := by
  rw [onAnyMessage_not_elevated cfg s room sender mid now st ow nk h]
  exact Function.update_same _ _ _

theorem onAnyMessage_queue (cfg : Config) (s : BotState)
    (room sender mid : Int) (now : ℚ) (st : Option String) (ow : Option Int)
    (nk : Bool) (h : isElevated st = false) :
    (onAnyMessage cfg s room sender mid now true st ow nk).st.queue
      = s.queue := by
  rw [onAnyMessage_not_elevated cfg s room sender mid now st ow nk h]

/-- A flush check waking before one debounce window has elapsed since the
key's last activity does nothing at all. -/
theorem flushCheck_noop (cfg : Config) (s : BotState) (k : Key) (t : ℚ)
    (h : t - s.lastSeen k < cfg.debounceWindow) : flushCheck cfg s k t = s := by
  unfold flushCheck
  exact if_neg (by linarith)

/-- A flush check that changed the queue must have fired at least one
debounce window after the key's last-activity stamp. -/
theorem flushCheck_queue_change_late (cfg : Config) (s : BotState) (k : Key)
    (t : ℚ) (h : (flushCheck cfg s k t).queue ≠ s.queue) :
    s.lastSeen k + cfg.debounceWindow ≤ t := by
  by_contra hlt
  push_neg at hlt
  exact h (by rw [flushCheck_noop cfg s k t (by linarith)])

/-- A flush check firing at least one window after the last activity, on a
non-empty buffer whose newest id is truthy, enqueues exactly that id and
resets the key's buffer, counter and stamp. -/
theorem flushCheck_fires (cfg : Config) (s : BotState) (k : Key) (t : ℚ)
    (m : Int) (hcond : cfg.debounceWindow ≤ t - s.lastSeen k)
    (hlast : (s.pending k).getLast? = some m) (hm : m ≠ 0) :
    flushCheck cfg s k t =
      { s with
        pending := Function.update s.pending k []
        queue := enqueueDelete cfg.maxQueueSize s.queue (k.1, m, k.2)
        spamCounter := Function.update s.spamCounter k 0
        lastSeen := Function.update s.lastSeen k 0 } := by
  have hne : (s.pending k).isEmpty = false := by
    cases hp : s.pending k
    · rw [hp] at hlast
      simp at hlast
    · simp
  unfold flushCheck
  rw [if_pos hcond]
  dsimp only
  rw [hne]
  simp only [Bool.false_eq_true, if_false, hlast]
  rw [if_pos hm]

/-! ### Claims about the dispatch queue and the worker -/

/-- C3: enqueueing a DispatchItem never blocks the producer: below capacity
the item is appended; on a full queue of capacity `N ≥ 1` the single oldest
item is evicted and the new item inserted, leaving exactly `N` items with the
old head gone (when it is not duplicated elsewhere and differs from the new
item) and the new item present; the size never exceeds `N`. -/
theorem claim_C3_bounded_enqueue (cap : Nat) (q : List Item) (x : Item)
    (hcap : 1 ≤ cap) (hle : q.length ≤ cap) :
    (enqueueDelete cap q x).length ≤ cap ∧
    (q.length < cap → enqueueDelete cap q x = q ++ [x]) ∧
    (q.length = cap →
      (enqueueDelete cap q x).length = cap ∧
      x ∈ enqueueDelete cap q x ∧
      ∀ a rest, q = a :: rest → a ∉ rest → a ≠ x →
        a ∉ enqueueDelete cap q x) := by
  rcases lt_or_eq_of_le hle with hlt | heq
  · have he : enqueueDelete cap q x = q ++ [x] :=
      enqueueDelete_of_room cap q x (Or.inr hlt)
    refine ⟨?_, fun _ => he, fun hfull => absurd hfull (by omega)⟩
    rw [he]
    simp only [List.length_append, List.length_cons, List.length_nil]
    omega
  · have hne : ¬ (cap = 0 ∨ q.length < cap) := by omega
    have he : enqueueDelete cap q x = q.tail ++ [x] := by
      unfold enqueueDelete dropOldestAndPut
      rw [if_neg hne]
    have hlen : (enqueueDelete cap q x).length = cap := by
      rw [he]
      simp only [List.length_append, List.length_tail, List.length_cons,
        List.length_nil]
      omega
    refine ⟨le_of_eq hlen, fun hlt => absurd hlt (by omega),
      fun _ => ⟨hlen, ?_, ?_⟩⟩
    · rw [he]
      simp
    · intro a rest hq ha hax
      rw [he, hq]
      simp only [List.tail_cons, List.mem_append, List.mem_singleton]
      rintro (h | h)
      · exact ha h
      · exact hax h

/-- Witness for C3 at capacity 2, a full queue of two distinct items and a
fresh third item. -/
theorem claim_C3_witness :
    1 ≤ 2 ∧ ([((1 : Int), (1 : Int), (1 : Int)), (2, 2, 2)] : List Item).length ≤ 2 ∧
    ((enqueueDelete 2 [((1 : Int), (1 : Int), (1 : Int)), (2, 2, 2)] (3, 3, 3)).length ≤ 2 ∧
    (([((1 : Int), (1 : Int), (1 : Int)), (2, 2, 2)] : List Item).length < 2 →
      enqueueDelete 2 [((1 : Int), (1 : Int), (1 : Int)), (2, 2, 2)] (3, 3, 3)
        = [((1 : Int), (1 : Int), (1 : Int)), (2, 2, 2)] ++ [(3, 3, 3)]) ∧
    (([((1 : Int), (1 : Int), (1 : Int)), (2, 2, 2)] : List Item).length = 2 →
      (enqueueDelete 2 [((1 : Int), (1 : Int), (1 : Int)), (2, 2, 2)] (3, 3, 3)).length = 2 ∧
      ((3 : Int), (3 : Int), (3 : Int)) ∈
        enqueueDelete 2 [((1 : Int), (1 : Int), (1 : Int)), (2, 2, 2)] (3, 3, 3) ∧
      ∀ a rest, ([((1 : Int), (1 : Int), (1 : Int)), (2, 2, 2)] : List Item) = a :: rest →
        a ∉ rest → a ≠ (3, 3, 3) →
        a ∉ enqueueDelete 2 [((1 : Int), (1 : Int), (1 : Int)), (2, 2, 2)] (3, 3, 3))) :=
  ⟨by norm_num, by norm_num,
    claim_C3_bounded_enqueue 2 [(1, 1, 1), (2, 2, 2)] (3, 3, 3)
      (by norm_num) (by norm_num)⟩

/-- C7: the backoff multiplier starts at 1.0, stays in [1.0, 8.0] under every
delete-attempt adjustment (success ×0.95 with floor 1.0, rate-limited ×2
capped at 8.0, unexpected failure ×1.5 capped at 8.0, non-retryable error
unchanged), and is never touched by the producer-side operations. -/
theorem claim_C7_backoff_invariant (cfg : Config) (item : Item)
    (rest : List Item) (b : ℚ) (res : DeleteResult)
    (hb1 : 1 ≤ b) (hb2 : b ≤ 8) :
    initState.backoff = 1 ∧
    1 ≤ (workerStep cfg item rest b res).backoff ∧
    (workerStep cfg item rest b res).backoff ≤ 8 ∧
    (∀ s room sender mid now mu st ow nk,
      (onAnyMessage cfg s room sender mid now mu st ow nk).st.backoff
        = s.backoff) ∧
    (∀ s k t, (flushCheck cfg s k t).backoff = s.backoff) := by
  refine ⟨rfl, ?_, ?_, ?_, ?_⟩
  · cases res <;> simp only [workerStep]
    · exact le_max_left _ _
    · exact le_min (by norm_num) (by linarith)
    · exact hb1
    · exact le_min (by norm_num) (by linarith)
  · cases res <;> simp only [workerStep]
    · exact max_le (by norm_num) (by linarith)
    · exact min_le_left _ _
    · exact hb2
    · exact min_le_left _ _
  · intro s room sender mid now mu st ow nk
    cases mu
    · rfl
    · unfold onAnyMessage
      by_cases h : isElevated st = true
      · simp only [if_true, h, if_pos]
      · rw [Bool.not_eq_true] at h
        simp only [if_true, h, Bool.false_eq_true, if_false]
  · intro s k t
    unfold flushCheck
    split
    · dsimp only
      split <;> rfl
    · rfl

/-- Witness for C7 at the default configuration, multiplier 1 and a
rate-limited outcome. -/
theorem claim_C7_witness :
    1 ≤ (1 : ℚ) ∧ (1 : ℚ) ≤ 8 ∧
    (initState.backoff = 1 ∧
    1 ≤ (workerStep defaultConfig (1, 2, 3) [] 1 (.retryAfter 2)).backoff ∧
    (workerStep defaultConfig (1, 2, 3) [] 1 (.retryAfter 2)).backoff ≤ 8 ∧
    (∀ s room sender mid now mu st ow nk,
      (onAnyMessage defaultConfig s room sender mid now mu st ow nk).st.backoff
        = s.backoff) ∧
    (∀ s k t, (flushCheck defaultConfig s k t).backoff = s.backoff)) :=
  ⟨by norm_num, by norm_num,
    claim_C7_backoff_invariant defaultConfig (1, 2, 3) [] 1 (.retryAfter 2)
      (by norm_num) (by norm_num)⟩

/-- C4 counterexample: on a `RetryAfter(retry_after = 2)` outcome the worker
re-enqueues the item *before* sleeping: in the iteration's action trace the
re-enqueue sits at position 1 and the sleep at position 2, so no sleep of the
retry period precedes the re-enqueue, refuting the claimed
"sleeps for T and then re-enqueues" order. -/
theorem claim_C4_counterexample :
    (workerStep defaultConfig (1, 2, 3) [] 1 (.retryAfter 2)).trace
      = [.deleteCall (1, 2, 3), .reenqueue (1, 2, 3), .sleep 2,
         .setBackoff 2] ∧
    ¬ ∃ i j : Nat, i < j ∧
      (workerStep defaultConfig (1, 2, 3) [] 1 (.retryAfter 2)).trace.get? i
        = some (.sleep 2) ∧
      (workerStep defaultConfig (1, 2, 3) [] 1 (.retryAfter 2)).trace.get? j
        = some (.reenqueue (1, 2, 3)) := by
  have hmin : min (8 : ℚ) (1 * 2) = 2 := by
    rw [one_mul]
    exact min_eq_right (by norm_num)
  have htr : (workerStep defaultConfig (1, 2, 3) [] 1 (.retryAfter 2)).trace
      = [.deleteCall (1, 2, 3), .reenqueue (1, 2, 3), .sleep 2,
         .setBackoff 2] := by
    simp only [workerStep, hmin]
  refine ⟨htr, ?_⟩
  rw [htr]
  rintro ⟨i, j, hij, hi, hj⟩
  have hi2 : i = 2 := by
    rcases i with _ | _ | _ | _ | i <;> simp_all [List.get?]
  have hj1 : j = 1 := by
    rcases j with _ | _ | _ | _ | j <;> simp_all [List.get?]
  omega

/-- C4 (amended): on an explicit rate-limited signal with retry period `T`,
the consumer re-enqueues the same item through the bounded-eviction enqueue
and *then* sleeps for `T` before its next dequeue attempt (so the next
dequeue of that item happens no earlier than `T` after the signal), and the
backoff multiplier after the event equals `min 8 (2 × previous)`. -/
theorem claim_C4_rate_limited_amended (cfg : Config) (item : Item)
    (rest : List Item) (b T : ℚ) :
    (workerStep cfg item rest b (.retryAfter T)).queue
      = enqueueDelete cfg.maxQueueSize rest item ∧
    item ∈ (workerStep cfg item rest b (.retryAfter T)).queue ∧
    (workerStep cfg item rest b (.retryAfter T)).backoff = min 8 (b * 2) ∧
    (workerStep cfg item rest b (.retryAfter T)).trace
      = [.deleteCall item, .reenqueue item, .sleep T,
         .setBackoff (min 8 (b * 2))] := by
  refine ⟨rfl, ?_, rfl, rfl⟩
  show item ∈ enqueueDelete cfg.maxQueueSize rest item
  unfold enqueueDelete dropOldestAndPut
  split <;> simp

theorem runBurst_concat (cfg : Config) (s : BotState) (room sender : Int)
    (evs : List Ev) (e : Ev) (ow : Option Int) :
    runBurst cfg s room sender (evs ++ [e]) ow
      = stepEv cfg room sender ow (runBurst cfg s room sender evs ow) e := by
  unfold runBurst
  rw [List.foldl_append]
  rfl

/-- A burst in which no record escalates leaves the dispatch queue alone. -/
theorem runBurst_queue (cfg : Config) (room sender : Int) (ow : Option Int) :
    ∀ (evs : List Ev) (s : BotState),
      (∀ x ∈ evs, isElevated x.status = false) →
      (runBurst cfg s room sender evs ow).queue = s.queue := by
  intro evs
  induction evs with
  | nil => intro s _; rfl
  | cons e rest ih =>
      intro s h
      have hstep : runBurst cfg s room sender (e :: rest) ow
          = runBurst cfg (stepEv cfg room sender ow s e) room sender rest ow :=
        rfl
      rw [hstep, ih _ (fun x hx => h x (List.mem_cons_of_mem _ hx))]
      exact onAnyMessage_queue cfg s room sender e.mid e.now e.status ow true
        (h e (List.mem_cons_self _ _))

/-! ### Claims about the debounce aggregator -/

/-- C1: a burst of `k ≥ 1` messages recorded for a muted, non-elevated
(room, sender) key, followed by the flush check that fires one quiet period
after the last message, produces exactly one DispatchItem — carrying the id
of the last message of the burst — and resets the key's burst counter and
pending buffer. -/
theorem claim_C1_burst_single_dispatch (cfg : Config) (s0 : BotState)
    (room sender : Int) (evs : List Ev) (e : Ev) (ow : Option Int) (T : ℚ)
    (hne : ∀ x ∈ evs ++ [e], isElevated x.status = false)
    (hmid : e.mid ≠ 0)
    (hT : cfg.debounceWindow ≤ T - e.now)
    (hq : cfg.maxQueueSize = 0 ∨ s0.queue.length < cfg.maxQueueSize) :
    (flushCheck cfg (runBurst cfg s0 room sender (evs ++ [e]) ow)
        (room, sender) T).queue
      = s0.queue ++ [(room, e.mid, sender)] ∧
    (flushCheck cfg (runBurst cfg s0 room sender (evs ++ [e]) ow)
        (room, sender) T).pending (room, sender) = [] ∧
    (flushCheck cfg (runBurst cfg s0 room sender (evs ++ [e]) ow)
        (room, sender) T).spamCounter (room, sender) = 0 := by
  have he : isElevated e.status = false := hne e (by simp)
  have hevs : ∀ x ∈ evs, isElevated x.status = false :=
    fun x hx => hne x (by simp [hx])
  have hconcat := runBurst_concat cfg s0 room sender evs e ow
  have hqmid : (runBurst cfg s0 room sender evs ow).queue = s0.queue :=
    runBurst_queue cfg room sender ow evs s0 hevs
  have hqueue1 : (runBurst cfg s0 room sender (evs ++ [e]) ow).queue
      = s0.queue := by
    rw [hconcat]
    unfold stepEv
    rw [onAnyMessage_queue cfg _ room sender e.mid e.now e.status ow true he,
      hqmid]
  have hlast : (runBurst cfg s0 room sender (evs ++ [e]) ow).lastSeen
      (room, sender) = e.now := by
    rw [hconcat]
    exact onAnyMessage_lastSeen cfg _ room sender e.mid e.now e.status ow
      true he
  have hpend : ((runBurst cfg s0 room sender (evs ++ [e]) ow).pending
      (room, sender)).getLast? = some e.mid := by
    rw [hconcat]
    unfold stepEv
    rw [onAnyMessage_pending cfg _ room sender e.mid e.now e.status ow true he]
    exact dequeAppend_getLast 50 _ e.mid
  have hfire := flushCheck_fires cfg
    (runBurst cfg s0 room sender (evs ++ [e]) ow) (room, sender) T e.mid
    (by rw [hlast]; exact hT) hpend hmid
  rw [hfire]
  dsimp only
  refine ⟨?_, Function.update_same _ _ _, Function.update_same _ _ _⟩
  rw [hqueue1]
  exact enqueueDelete_of_room cfg.maxQueueSize s0.queue _ hq

/-- Witness for C1: two messages (ids 5 then 7) at times 0 and 0.1, flush
check firing at time 1; the queue receives exactly the DispatchItem of
message 7. -/
theorem claim_C1_witness :
    (∀ x ∈ [(⟨5, 0, none⟩ : Ev)] ++ [(⟨7, 1/10, none⟩ : Ev)],
      isElevated x.status = false) ∧
    (7 : Int) ≠ 0 ∧
    defaultConfig.debounceWindow ≤ 1 - (1/10 : ℚ) ∧
    ((flushCheck defaultConfig
        (runBurst defaultConfig initState 1 2
          ([(⟨5, 0, none⟩ : Ev)] ++ [(⟨7, 1/10, none⟩ : Ev)]) none)
        (1, 2) 1).queue
      = initState.queue ++ [(1, 7, 2)] ∧
    (flushCheck defaultConfig
        (runBurst defaultConfig initState 1 2
          ([(⟨5, 0, none⟩ : Ev)] ++ [(⟨7, 1/10, none⟩ : Ev)]) none)
        (1, 2) 1).pending (1, 2) = [] ∧
    (flushCheck defaultConfig
        (runBurst defaultConfig initState 1 2
          ([(⟨5, 0, none⟩ : Ev)] ++ [(⟨7, 1/10, none⟩ : Ev)]) none)
        (1, 2) 1).spamCounter (1, 2) = 0) :=
  ⟨by intro x hx; fin_cases hx <;> rfl, by norm_num,
    by norm_num [defaultConfig],
    claim_C1_burst_single_dispatch defaultConfig initState 1 2
      [⟨5, 0, none⟩] ⟨7, 1/10, none⟩ none 1
      (by intro x hx; fin_cases hx <;> rfl) (by norm_num)
      (by norm_num [defaultConfig])
      (Or.inr (by norm_num [initState, defaultConfig]))⟩

/-- C5: a message recorded at `t1` after a flush check was scheduled at
`t0 < t1` makes that earlier check (waking at `t0 + window`) a strict no-op,
and any flush check that does change the queue fires at least one debounce
window after the burst's last message, hence strictly more than one window
after any earlier message. -/
theorem claim_C5_deferred_flush (cfg : Config) (s : BotState)
    (room sender mid : Int) (t0 t1 : ℚ) (st : Option String) (ow : Option Int)
    (hst : isElevated st = false) (h01 : t0 < t1) :
    flushCheck cfg (onAnyMessage cfg s room sender mid t1 true st ow true).st
        (room, sender) (t0 + cfg.debounceWindow)
      = (onAnyMessage cfg s room sender mid t1 true st ow true).st ∧
    ∀ t, (flushCheck cfg (onAnyMessage cfg s room sender mid t1 true st ow
          true).st (room, sender) t).queue
        ≠ (onAnyMessage cfg s room sender mid t1 true st ow true).st.queue →
      t1 + cfg.debounceWindow ≤ t := by
  have hl : (onAnyMessage cfg s room sender mid t1 true st ow
      true).st.lastSeen (room, sender) = t1 :=
    onAnyMessage_lastSeen cfg s room sender mid t1 st ow true hst
  constructor
  · apply flushCheck_noop
    rw [hl]
    linarith
  · intro t h
    have := flushCheck_queue_change_late cfg _ (room, sender) t h
    rw [hl] at this
    exact this

/-- Witness for C5: a check scheduled at time 0 wakes at 0.6 and is a no-op
because a newer message arrived at time 0.1. -/
theorem claim_C5_witness :
    isElevated none = false ∧ (0 : ℚ) < 1/10 ∧
    (flushCheck defaultConfig
        (onAnyMessage defaultConfig initState 1 2 7 (1/10) true none none
          true).st (1, 2) (0 + defaultConfig.debounceWindow)
      = (onAnyMessage defaultConfig initState 1 2 7 (1/10) true none none
          true).st ∧
    ∀ t, (flushCheck defaultConfig
          (onAnyMessage defaultConfig initState 1 2 7 (1/10) true none none
            true).st (1, 2) t).queue
        ≠ (onAnyMessage defaultConfig initState 1 2 7 (1/10) true none none
          true).st.queue →
      1/10 + defaultConfig.debounceWindow ≤ t) :=
  ⟨rfl, by norm_num,
    claim_C5_deferred_flush defaultConfig initState 1 2 7 0 (1/10) none none
      rfl (by norm_num)⟩

/-- C9 counterexample: the last-activity stamp is not monotone across
dispatcher operations — a record at time 10 followed by the debounce flush
firing at time 10.6 drops the stamp of key `(1, 2)` from 10 back to 0. -/
theorem claim_C9_counterexample :
    (flushCheck defaultConfig
        (onAnyMessage defaultConfig initState 1 2 5 10 true none none true).st
        (1, 2) (53/5)).lastSeen (1, 2)
      < (onAnyMessage defaultConfig initState 1 2 5 10 true none none
          true).st.lastSeen (1, 2) := by
  have hl : (onAnyMessage defaultConfig initState 1 2 5 10 true none none
      true).st.lastSeen (1, 2) = 10 :=
    onAnyMessage_lastSeen defaultConfig initState 1 2 5 10 none none true rfl
  have hp : (onAnyMessage defaultConfig initState 1 2 5 10 true none none
      true).st.pending (1, 2) = dequeAppend 50 (initState.pending (1, 2)) 5 :=
    onAnyMessage_pending defaultConfig initState 1 2 5 10 none none true rfl
  have hfire := flushCheck_fires defaultConfig
    (onAnyMessage defaultConfig initState 1 2 5 10 true none none true).st
    (1, 2) (53/5) 5
    (by rw [hl]; norm_num [defaultConfig])
    (by rw [hp]; exact dequeAppend_getLast 50 _ 5)
    (by norm_num)
  rw [hfire]
  dsimp only
  rw [Function.update_same, hl]
  norm_num

/-- C9 (amended): a non-escalating record whose wall-clock time is not behind
the stored stamp never decreases the key's last-activity stamp (record
operations are monotone), while flushes reset the stamp to 0.0; nevertheless
a flush check that changes the queue fires only at least one debounce window
after the stamp it observed, so a flush never fires early relative to the
most recent message. -/
theorem claim_C9_monotone_amended (cfg : Config) (s : BotState)
    (room sender mid : Int) (now : ℚ) (st : Option String) (ow : Option Int)
    (k : Key) (t : ℚ) (hst : isElevated st = false)
    (hnow : s.lastSeen (room, sender) ≤ now) :
    s.lastSeen (room, sender)
      ≤ (onAnyMessage cfg s room sender mid now true st ow
          true).st.lastSeen (room, sender) ∧
    ((flushCheck cfg s k t).queue ≠ s.queue →
      s.lastSeen k + cfg.debounceWindow ≤ t) := by
  refine ⟨?_, flushCheck_queue_change_late cfg s k t⟩
  rw [onAnyMessage_lastSeen cfg s room sender mid now st ow true hst]
  exact hnow

/-- Witness for the amended C9 at the initial state and time 3. -/
theorem claim_C9_amended_witness :
    isElevated none = false ∧ initState.lastSeen (1, 2) ≤ (3 : ℚ) ∧
    (initState.lastSeen (1, 2)
      ≤ (onAnyMessage defaultConfig initState 1 2 5 3 true none none
          true).st.lastSeen (1, 2) ∧
    ((flushCheck defaultConfig initState (1, 2) 3).queue ≠ initState.queue →
      initState.lastSeen (1, 2) + defaultConfig.debounceWindow ≤ 3)) :=
  ⟨rfl, by norm_num [initState],
    claim_C9_monotone_amended defaultConfig initState 1 2 5 3 none none
      (1, 2) 3 rfl (by norm_num [initState])⟩

/-- Unfolding of an escalating `on_any_message` call: the whole buffer
(including the just-appended id) is drained into the queue, and the key's
buffer, counter and stamp are reset; no timer is scheduled. -/
theorem onAnyMessage_elevated (cfg : Config) (s : BotState)
    (room sender mid : Int) (now : ℚ) (st : Option String) (ow : Option Int)
    (nk : Bool) (h : isElevated st = true) :
    onAnyMessage cfg s room sender mid now true st ow nk =
      { st :=
          { s with
            queue := (dequeAppend 50 (s.pending (room, sender)) mid).foldl
              (fun q m => enqueueDelete cfg.maxQueueSize q (room, m, sender))
              s.queue
            pending := Function.update
              (Function.update s.pending (room, sender)
                (dequeAppend 50 (s.pending (room, sender)) mid))
              (room, sender) []
            spamCounter := Function.update
              (Function.update s.spamCounter (room, sender)
                (s.spamCounter (room, sender) + 1)) (room, sender) 0
            lastSeen := Function.update
              (Function.update s.lastSeen (room, sender) now) (room, sender) 0 }
        timer := false
        notified := decide (s.spamCounter (room, sender) + 1
            = cfg.spamNotifyThreshold) && ow.isSome } := by
  simp only [onAnyMessage, if_true, h, if_pos]

/-- Folding the bounded enqueue over a list of ids, starting from a queue
with enough room, appends the corresponding DispatchItems in order. -/
theorem foldl_enqueue_append (cap : Nat) (room sender : Int) :
    ∀ (l : List Int) (q : List Item),
      (cap = 0 ∨ q.length + l.length ≤ cap) →
      l.foldl (fun acc m => enqueueDelete cap acc (room, m, sender)) q
        = q ++ l.map (fun m => (room, m, sender)) := by
  intro l
  induction l with
  | nil => intro q _; simp
  | cons m rest ih =>
      intro q h
      have h1 : cap = 0 ∨ q.length < cap := by
        rcases h with h | h
        · exact Or.inl h
        · right
          simp only [List.length_cons] at h
          omega
      rw [List.foldl_cons, enqueueDelete_of_room cap q _ h1,
        ih (q ++ [(room, m, sender)]) ?_]
      · simp
      · rcases h with h | h
        · exact Or.inl h
        · right
          simp only [List.length_append, List.length_cons,
            List.length_nil] at h ⊢
          omega

/-- C2: when the muted sender holds elevated privilege at the record call,
every id in the key's pending buffer — the just-arrived one included — is
immediately submitted as an individual DispatchItem in original arrival
order, the burst counter is reset, the buffer is emptied, and no debounce
timer is scheduled for that call. -/
theorem claim_C2_escalation_flush (cfg : Config) (s : BotState)
    (room sender mid : Int) (now : ℚ) (st : Option String) (ow : Option Int)
    (nk : Bool) (helev : isElevated st = true)
    (hq : cfg.maxQueueSize = 0 ∨
      s.queue.length + (dequeAppend 50 (s.pending (room, sender)) mid).length
        ≤ cfg.maxQueueSize) :
    (onAnyMessage cfg s room sender mid now true st ow nk).st.queue
      = s.queue ++ (dequeAppend 50 (s.pending (room, sender)) mid).map
          (fun m => (room, m, sender)) ∧
    (onAnyMessage cfg s room sender mid now true st ow nk).st.pending
      (room, sender) = [] ∧
    (onAnyMessage cfg s room sender mid now true st ow nk).st.spamCounter
      (room, sender) = 0 ∧
    (onAnyMessage cfg s room sender mid now true st ow nk).timer = false := by
  rw [onAnyMessage_elevated cfg s room sender mid now st ow nk helev]
  dsimp only
  exact ⟨foldl_enqueue_append cfg.maxQueueSize room sender _ s.queue hq,
    Function.update_same _ _ _, Function.update_same _ _ _, rfl⟩

/-- Witness for C2: an administrator sender with one buffered message (id 9)
gets it dispatched immediately with counter and buffer reset and no timer. -/
theorem claim_C2_witness :
    isElevated (some "administrator") = true ∧
    (defaultConfig.maxQueueSize = 0 ∨
      initState.queue.length
          + (dequeAppend 50 (initState.pending (1, 2)) 9).length
        ≤ defaultConfig.maxQueueSize) ∧
    ((onAnyMessage defaultConfig initState 1 2 9 5 true
        (some "administrator") none true).st.queue
      = initState.queue ++ (dequeAppend 50 (initState.pending (1, 2)) 9).map
          (fun m => (1, m, 2)) ∧
    (onAnyMessage defaultConfig initState 1 2 9 5 true
        (some "administrator") none true).st.pending (1, 2) = [] ∧
    (onAnyMessage defaultConfig initState 1 2 9 5 true
        (some "administrator") none true).st.spamCounter (1, 2) = 0 ∧
    (onAnyMessage defaultConfig initState 1 2 9 5 true
        (some "administrator") none true).timer = false) :=
  ⟨rfl, Or.inr (by norm_num [initState, defaultConfig, dequeAppend]),
    claim_C2_escalation_flush defaultConfig initState 1 2 9 5
      (some "administrator") none true rfl
      (Or.inr (by norm_num [initState, defaultConfig, dequeAppend]))⟩

/-! ### Claims about the entry point -/

/-- C8: when the `get_chat_member` privilege lookup raises, `on_any_message`
behaves exactly as for a non-elevated sender: same resulting state, the
ordinary debounce timer is scheduled, and no immediate flush touches the
queue. -/
theorem claim_C8_lookup_failure_fallback (cfg : Config) (s : BotState)
    (room sender mid : Int) (now : ℚ) (ow : Option Int) (nk : Bool) :
    onAnyMessage cfg s room sender mid now true none ow nk
      = onAnyMessage cfg s room sender mid now true (some "member") ow nk ∧
    (onAnyMessage cfg s room sender mid now true none ow nk).timer = true ∧
    (onAnyMessage cfg s room sender mid now true none ow nk).st.queue
      = s.queue := by
  have h1 : isElevated none = false := rfl
  have h2 : isElevated (some "member") = false := by rfl
  rw [onAnyMessage_not_elevated cfg s room sender mid now none ow nk h1,
    onAnyMessage_not_elevated cfg s room sender mid now (some "member") ow nk h2]
  exact ⟨rfl, rfl, rfl⟩

/-- The notification flags of a non-escalating burst, starting from counter
value `c` with an owner configured, are exactly "the counter just reached the
threshold". -/
theorem burstNotifs_formula (cfg : Config) (room sender : Int) (o : Int) :
    ∀ (evs : List Ev) (s : BotState) (c : Nat),
      s.spamCounter (room, sender) = c →
      (∀ x ∈ evs, isElevated x.status = false) →
      burstNotifs cfg s room sender evs (some o)
        = (List.range evs.length).map
            (fun j => decide (c + j + 1 = cfg.spamNotifyThreshold)) := by
  intro evs
  induction evs with
  | nil => intro s c _ _; rfl
  | cons e rest ih =>
      intro s c hc hall
      have he : isElevated e.status = false := hall e (List.mem_cons_self _ _)
      have hrest : ∀ x ∈ rest, isElevated x.status = false :=
        fun x hx => hall x (List.mem_cons_of_mem _ hx)
      have hspam : ((onAnyMessage cfg s room sender e.mid e.now true e.status
          (some o) true).st).spamCounter (room, sender) = c + 1 := by
        rw [onAnyMessage_spam cfg s room sender e.mid e.now e.status (some o)
          true he, hc]
      have hnot : (onAnyMessage cfg s room sender e.mid e.now true e.status
          (some o) true).notified
            = decide (c + 1 = cfg.spamNotifyThreshold) := by
        rw [onAnyMessage_not_elevated cfg s room sender e.mid e.now e.status
          (some o) true he]
        simp [hc]
      simp only [burstNotifs]
      rw [hnot, ih _ (c + 1) hspam hrest, List.length_cons,
        List.range_succ_eq_map, List.map_cons, List.map_map]
      simp only [Nat.add_zero]
      refine congrArg (List.cons _) ?_
      refine List.map_congr_left fun j _ => ?_
      dsimp only [Function.comp]
      have h : c + 1 + j + 1 = c + Nat.succ j + 1 := by omega
      rw [h]

/-- In the flag list "counter reached the threshold at step j", the flag is
set exactly once when the burst is long enough to reach the threshold, and
never otherwise. -/
theorem count_one_at_threshold (T : Nat) (hT : 1 ≤ T) :
    ∀ k : Nat, ((List.range k).map (fun j => decide (j + 1 = T))).count true
      = if T ≤ k then 1 else 0 := by
  intro k
  induction k with
  | zero =>
      rw [if_neg (by omega)]
      rfl
  | succ k ih =>
      rw [List.range_succ, List.map_append, List.count_append, ih]
      by_cases h : k + 1 = T
      · have h1 : ¬ T ≤ k := by omega
        have h2 : T ≤ k + 1 := by omega
        simp [h, h1, h2]
      · have h2 : (T ≤ k + 1) ↔ (T ≤ k) := by omega
        simp [h, h2]

/-- C6: within one accumulation cycle (counter starting at zero, no record
escalating), the spam notifier is triggered exactly on the record call at
which the burst counter reaches the configured threshold — once when the
burst is long enough, never before or after — and the success or failure of
the notify call has no effect on the dispatcher's behaviour. -/
theorem claim_C6_notify_once_per_cycle (cfg : Config) (s0 : BotState)
    (room sender : Int) (evs : List Ev) (o : Int)
    (h0 : s0.spamCounter (room, sender) = 0)
    (hne : ∀ x ∈ evs, isElevated x.status = false)
    (hth : 1 ≤ cfg.spamNotifyThreshold) :
    burstNotifs cfg s0 room sender evs (some o)
      = (List.range evs.length).map
          (fun j => decide (j + 1 = cfg.spamNotifyThreshold)) ∧
    (burstNotifs cfg s0 room sender evs (some o)).count true
      = (if cfg.spamNotifyThreshold ≤ evs.length then 1 else 0) ∧
    (∀ s room1 sender1 mid now mu st ow,
      onAnyMessage cfg s room1 sender1 mid now mu st ow true
        = onAnyMessage cfg s room1 sender1 mid now mu st ow false) := by
  have hf := burstNotifs_formula cfg room sender o evs s0 0 h0 hne
  have hf1 : burstNotifs cfg s0 room sender evs (some o)
      = (List.range evs.length).map
          (fun j => decide (j + 1 = cfg.spamNotifyThreshold)) := by
    rw [hf]
    exact List.map_congr_left fun j _ => by
      have : 0 + j + 1 = j + 1 := by omega
      rw [this]
  refine ⟨hf1, ?_, fun s room1 sender1 mid now mu st ow => rfl⟩
  rw [hf1]
  exact count_one_at_threshold cfg.spamNotifyThreshold hth evs.length

/-- Witness for C6 with threshold 2 and a burst of three messages: the flags
are [false, true, false] and the notifier fires exactly once. -/
theorem claim_C6_witness :
    initState.spamCounter (1, 2) = 0 ∧
    (∀ x ∈ [(⟨5, 0, none⟩ : Ev), ⟨6, 0, none⟩, ⟨7, 0, none⟩],
      isElevated x.status = false) ∧
    1 ≤ (2 : Nat) ∧
    (burstNotifs
        { deleteRatePerSecond := 15, debounceWindow := 3/5,
          maxQueueSize := 4000, spamNotifyThreshold := 2 }
        initState 1 2 [⟨5, 0, none⟩, ⟨6, 0, none⟩, ⟨7, 0, none⟩] (some 99)
      = (List.range
          ([(⟨5, 0, none⟩ : Ev), ⟨6, 0, none⟩, ⟨7, 0, none⟩].length)).map
          (fun j => decide (j + 1
            = ({ deleteRatePerSecond := 15, debounceWindow := 3/5,
                 maxQueueSize := 4000,
                 spamNotifyThreshold := 2 } : Config).spamNotifyThreshold)) ∧
    (burstNotifs
        { deleteRatePerSecond := 15, debounceWindow := 3/5,
          maxQueueSize := 4000, spamNotifyThreshold := 2 }
        initState 1 2 [⟨5, 0, none⟩, ⟨6, 0, none⟩, ⟨7, 0, none⟩]
        (some 99)).count true
      = (if ({ deleteRatePerSecond := 15, debounceWindow := 3/5,
               maxQueueSize := 4000,
               spamNotifyThreshold := 2 } : Config).spamNotifyThreshold
            ≤ [(⟨5, 0, none⟩ : Ev), ⟨6, 0, none⟩, ⟨7, 0, none⟩].length
         then 1 else 0) ∧
    (∀ s room1 sender1 mid now mu st ow,
      onAnyMessage
          { deleteRatePerSecond := 15, debounceWindow := 3/5,
            maxQueueSize := 4000, spamNotifyThreshold := 2 }
          s room1 sender1 mid now mu st ow true
        = onAnyMessage
            { deleteRatePerSecond := 15, debounceWindow := 3/5,
              maxQueueSize := 4000, spamNotifyThreshold := 2 }
            s room1 sender1 mid now mu st ow false)) :=
  ⟨rfl, by intro x hx; fin_cases hx <;> rfl, by norm_num,
    claim_C6_notify_once_per_cycle
      { deleteRatePerSecond := 15, debounceWindow := 3/5,
        maxQueueSize := 4000, spamNotifyThreshold := 2 }
      initState 1 2 [⟨5, 0, none⟩, ⟨6, 0, none⟩, ⟨7, 0, none⟩] 99 rfl
      (by intro x hx; fin_cases hx <;> rfl) (by norm_num)⟩

/-- C10: a message from a sender who is not muted in its room leaves the
dispatcher state untouched: no buffer, stamp or counter changes, nothing is
enqueued, no timer is scheduled and no notification is attempted. -/
theorem claim_C10_not_muted_frame (cfg : Config) (s : BotState)
    (room sender mid : Int) (now : ℚ) (st : Option String) (ow : Option Int)
    (nk : Bool) :
    onAnyMessage cfg s room sender mid now false st ow nk
      = { st := s, timer := false, notified := false } := rfl

end MuteBot
